import Mathlib

/-!
# Verification of the DIGITAL_CITY_TWIN scenario impact engine

Shallow embedding of `backend/main.py` (FastAPI backend of the digital city
twin).  Python floats are embedded as exact rationals (`ℚ`), Python ints as
`ℤ`/`ℕ`, fallible code as `Option`/`Except`.  External geometric and routing
libraries (shapely buffering, osmnx nearest-node search, the haversine
trigonometry) are modelled as opaque function parameters: the claims under
verification never depend on their numeric values, only on how the engine
combines their results.
-/

set_option autoImplicit false

namespace DigitalTwin

/-! ## Python numeric primitives -/

/-- Python `int(x)` on a float/rational: truncation toward zero. -/
def pyTrunc (q : ℚ) : ℤ :=
  if 0 ≤ q then ⌊q⌋ else ⌈q⌉

/-- Python `round(x)` (round half to even), on exact rationals. -/
def pyRound (q : ℚ) : ℤ :=
  let f := ⌊q⌋
  let r := q - (f : ℚ)
  if r < 1/2 then f
  else if 1/2 < r then f + 1
  else if f % 2 = 0 then f else f + 1

theorem pyTrunc_of_nonneg {q : ℚ} (h : 0 ≤ q) : pyTrunc q = ⌊q⌋ := by
  simp [pyTrunc, h]

/-! ## Data model (pydantic models of `backend/main.py`, lines 60-101) -/

/-- `LatLng` (main.py line 60). -/
structure LatLng where
  lat : ℚ
  lng : ℚ
  deriving DecidableEq

/-- The `Literal["road", "drain", "green", "restriction"]` intervention type
(main.py line 66). -/
inductive InterventionType where
  | road
  | drain
  | green
  | restriction
  deriving DecidableEq

/-- `ScenarioRequest` (main.py lines 64-72). -/
structure ScenarioRequest where
  scenarioName : Option String := none
  interventionType : InterventionType
  rainfall : ℤ
  approxLength : Option ℚ := none
  lanes : Option ℤ := none
  roadPoints : List LatLng := []
  origin : Option LatLng := none
  destination : Option LatLng := none
  deriving DecidableEq

/-- `TrafficResult` (main.py lines 74-77). -/
structure TrafficResult where
  minutesChange : ℚ
  baselineMinutes : Option ℚ := none
  scenarioMinutes : Option ℚ := none
  deriving DecidableEq

/-- `FloodResult` (main.py lines 79-83). -/
structure FloodResult where
  baselineHighRiskCells : ℤ
  scenarioHighRiskCells : ℤ
  baselinePop : ℤ
  scenarioPop : ℤ
  deriving DecidableEq

/-- `ScenarioResponse` (main.py lines 85-88).  The `notes` field of the source
is the string `f"Intervention length {length_km:.2f} km."`; the embedding
carries the interpolated length itself, string formatting is not modelled. -/
structure ScenarioResponse where
  traffic : TrafficResult
  flood : FloodResult
  notesLengthKm : ℚ
  deriving DecidableEq

/-- A flood hotspot record: a point geometry (`geometry.y` = lat,
`geometry.x` = lng) plus its non-geometry attribute columns
(`row_properties_safe`, main.py lines 122-132, modelled as already-converted
key/value pairs). -/
structure Hotspot where
  lat : ℚ
  lng : ℚ
  properties : List (String × String)
  deriving DecidableEq

/-- `AlertPoint` (main.py lines 90-93). -/
structure AlertPoint where
  lat : ℚ
  lng : ℚ
  properties : List (String × String)
  deriving DecidableEq

/-- `AlertResponse` (main.py lines 95-101). -/
structure AlertResponse where
  severity : String
  affected_count : ℤ
  affected_points : List AlertPoint
  message : String
  recommended_actions : List String
  rainfall_mm : ℚ
  deriving DecidableEq

/-- main.py lines 270-276: each affected row becomes
`{"lat": geom.y, "lng": geom.x, "properties": row_properties_safe(row)}`. -/
def hotspot_to_point (h : Hotspot) : AlertPoint :=
  { lat := h.lat, lng := h.lng, properties := h.properties }

/-! ## Severity classification and alert generation (main.py lines 134-299) -/

/-- `classify_severity` (main.py lines 134-141). -/
def classify_severity (rainfall_mm : ℚ) : String :=
  if rainfall_mm < 10 then "low"
  else if rainfall_mm < 25 then "moderate"
  else if rainfall_mm < 50 then "high"
  else "critical"

/-- The `messages` dict of `generate_alert_from_rainfall`
(main.py lines 279-284); total on the four severities produced by
`classify_severity`. -/
def severity_message (s : String) : String :=
  if s = "low" then "Low flood risk."
  else if s = "moderate" then "Moderate risk — localized hotspots possible."
  else if s = "high" then "High risk — many hotspots likely to be affected."
  else "Critical risk — widespread inundation possible."

/-- The `actions` dict of `generate_alert_from_rainfall`
(main.py lines 285-290). -/
def severity_actions (s : String) : List String :=
  if s = "low" then ["Monitor rainfall trends"]
  else if s = "moderate" then ["Prepare pumps and alert local teams"]
  else if s = "high" then ["Issue city-wide advisories", "Mobilize maintenance teams"]
  else ["Activate emergency operations", "Prepare evacuations"]

/-- The rainfall-to-activation-fraction rule of `generate_alert_from_rainfall`
(main.py lines 254-264). -/
def rainfall_fraction (rainfall_mm : ℚ) : ℚ :=
  if rainfall_mm < 10 then 5/100
  else if rainfall_mm < 25 then 15/100
  else if rainfall_mm < 50 then 40/100
  else if rainfall_mm < 100 then 70/100
  else 1

/-- The `pts.cx[minx:maxx, miny:maxy]` bounding-box restriction
(main.py lines 239-241); geopandas `.cx` keeps point rows whose coordinates
lie inside the (closed) box.  A `bbox` that is absent is not applied. -/
def bbox_filter (bbox : Option (ℚ × ℚ × ℚ × ℚ)) (pts : List Hotspot) : List Hotspot :=
  match bbox with
  | none => pts
  | some (minx, miny, maxx, maxy) =>
      pts.filter (fun h =>
        decide (minx ≤ h.lng) && decide (h.lng ≤ maxx) &&
        decide (miny ≤ h.lat) && decide (h.lat ≤ maxy))

/-- `generate_alert_from_rainfall` (main.py lines 234-299).  The dataset being
absent raises `RuntimeError` in the source; embedded as `Except.error`. -/
def generate_alert_from_rainfall (flood_points : Option (List Hotspot))
    (rainfall_mm : ℚ) (bbox : Option (ℚ × ℚ × ℚ × ℚ)) :
    Except String AlertResponse :=
  match flood_points with
  | none => Except.error "Flood points dataset not loaded on server."
  | some fps =>
      let pts := bbox_filter bbox fps
      let total := pts.length
      if total = 0 then
        Except.ok
          { severity := "low"
            affected_count := 0
            affected_points := []
            message := "No known hotspots for selected area."
            recommended_actions := ["Monitor rainfall"]
            rainfall_mm := rainfall_mm }
      else
        let frac := rainfall_fraction rainfall_mm
        let affected_count : ℤ := max 1 (pyTrunc ((total : ℚ) * frac))
        let affected := pts.take affected_count.toNat
        let severity := classify_severity rainfall_mm
        Except.ok
          { severity := severity
            affected_count := affected_count
            affected_points := affected.map hotspot_to_point
            message := severity_message severity
            recommended_actions := severity_actions severity
            rainfall_mm := rainfall_mm }

/-! ## Network overlay router (main.py lines 161-187)

The road graph loaded by `ox.load_graphml` is a directed multigraph whose
edges carry a `travel_time` weight in seconds; a list of weighted directed
edges models it exactly (parallel edges are simply repeated entries).
`ox.distance.nearest_nodes` — the planar nearest-neighbour search of the
external osmnx library, wrapped in `try/except` by `nearest_node` — is
modelled as an opaque resolver returning `Option Node`.  `nx.shortest_path`
with the `travel_time` weight is Dijkstra on non-negative weights; its
denotation here is the minimum total weight over all (cycle-free) paths,
enumerated with enough fuel for every simple path. -/

/-- Graph node identifiers (osmnx node ids). -/
abbrev Node := ℕ

/-- A directed edge `(u, v, travel_time)` in seconds. -/
abbrev Edge := Node × Node × ℚ

/-- The road multigraph: a list of weighted directed edges. -/
abbrev Graph := List Edge

/-- An overlay request `(u, v, length_km, speed)` as passed in `temp_edges`. -/
abbrev OverlayEdge := Node × Node × ℚ × ℚ

/-- `G.add_edge(u, v, travel_time=t)` on the derived copy of the graph. -/
def add_edge (g : Graph) (u v : Node) (t : ℚ) : Graph :=
  g ++ [(u, v, t)]

/-- The `for u, v, length_km, speed in temp_edges` loop of `compute_od_time`
(main.py lines 173-177): each overlay is converted to
`t = (length_km / speed) * 3600.0` and inserted in both directions. -/
def overlay_apply (g : Graph) (temp_edges : List OverlayEdge) : Graph :=
  temp_edges.foldl
    (fun G e =>
      let t := (e.2.2.1 / e.2.2.2) * 3600
      add_edge (add_edge G e.1 e.2.1 t) e.2.1 e.1 t)
    g

/-- The bidirectional travel-time edges an overlay list contributes. -/
def converted_edges (temp_edges : List OverlayEdge) : Graph :=
  temp_edges.flatMap (fun e =>
    let t := (e.2.2.1 / e.2.2.2) * 3600
    [(e.1, e.2.1, t), (e.2.1, e.1, t)])

/-- The node set of the multigraph (sources and targets of its edges). -/
def graph_nodes (g : Graph) : Finset Node :=
  (g.map (fun e => e.1)).toFinset ∪ (g.map (fun e => e.2.1)).toFinset

/-- Minimum of a list of rationals, `none` on the empty list. -/
def list_min : List ℚ → Option ℚ
  | [] => none
  | x :: xs =>
      match list_min xs with
      | none => some x
      | some m => some (min x m)

/-- Total weights of all cycle-free paths from `u` to `tgt` in `g` that avoid
the already-visited nodes `vis` and use at most `fuel` edges. -/
def routes (g : Graph) (tgt : Node) : ℕ → List Node → Node → List ℚ
  | 0, _, u => if u = tgt then [0] else []
  | fuel + 1, vis, u =>
      if u = tgt then [0]
      else
        (g.filter (fun e => e.1 == u && !(vis.contains e.2.1))).flatMap
          (fun e => (routes g tgt fuel (u :: vis) e.2.1).map (fun w => e.2.2 + w))

/-- Denotation of `nx.shortest_path` + `nx.path_weight` with the
`travel_time` weight (main.py lines 183-184): the least total travel time of
any simple path, `none` when origin and destination are disconnected (the
`except` branch of the source). -/
def shortest_time (g : Graph) (u v : Node) : Option ℚ :=
  list_min (routes g v (graph_nodes g).card [] u)

/-- `nearest_node` (main.py lines 161-167): `None` when the graph is absent;
otherwise the (fallible) osmnx nearest-node search, modelled by the opaque
`resolver`. -/
def nearest_node (road_graph : Option Graph)
    (resolver : Graph → LatLng → Option Node) (p : LatLng) : Option Node :=
  match road_graph with
  | none => none
  | some g => resolver g p

/-- `compute_od_time` (main.py lines 169-187): `None` without a graph, a
derived copy `G` of the graph extended with the overlay edges, nearest-node
resolution of origin and destination on the *original* graph, then the
shortest travel time on `G`. -/
def compute_od_time (road_graph : Option Graph)
    (resolver : Graph → LatLng → Option Node) (origin dest : LatLng)
    (temp_edges : List OverlayEdge) : Option ℚ :=
  match road_graph with
  | none => none
  | some g0 =>
      let G := overlay_apply g0 temp_edges
      match nearest_node (some g0) resolver origin,
            nearest_node (some g0) resolver dest with
      | some u, some v => shortest_time G u v
      | _, _ => none

/-- State-passing rendering of `compute_od_time`: the process-wide
`road_graph` is the state; the source takes a `.copy()` of it, mutates only
the copy, and leaves the global untouched. -/
def compute_od_time_run (road_graph : Option Graph)
    (resolver : Graph → LatLng → Option Node) (origin dest : LatLng)
    (temp_edges : List OverlayEdge) : Option ℚ × Option Graph :=
  match road_graph with
  | none => (none, road_graph)
  | some g0 =>
      let G := overlay_apply g0 temp_edges
      let result :=
        match nearest_node (some g0) resolver origin,
              nearest_node (some g0) resolver dest with
        | some u, some v => shortest_time G u v
        | _, _ => none
      (result, road_graph)

/-! ## Geodesy and the length default (main.py lines 143-159, 326-327) -/

/-- Sum of the distances between consecutive points: the
`for i in range(1, len(points))` loop of `compute_length_from_points`.
`dist` is the haversine `distance_km` (main.py lines 143-151), opaque here
because it is trigonometric. -/
def pair_sum (dist : LatLng → LatLng → ℚ) : List LatLng → ℚ
  | a :: b :: rest => dist a b + pair_sum dist (b :: rest)
  | _ => 0

/-- `compute_length_from_points` (main.py lines 153-159): `0.0` for fewer
than two points, else the polyline length. -/
def compute_length_from_points (dist : LatLng → LatLng → ℚ)
    (points : List LatLng) : ℚ :=
  if points.length < 2 then 0 else pair_sum dist points

/-- Python `req.approxLength or fallback` (main.py line 326): a `None` *or
falsy* (zero) explicit length falls back to the computed one. -/
def orElseLength (approxLength : Option ℚ) (fallback : ℚ) : ℚ :=
  match approxLength with
  | none => fallback
  | some l => if l = 0 then fallback else l

/-- Python `req.lanes or 1` (main.py line 327). -/
def orElseLanes (lanes : Option ℤ) : ℤ :=
  match lanes with
  | none => 1
  | some l => if l = 0 then 1 else l

/-! ## Scenario impact calculator (`simulate`, main.py lines 324-388) -/

/-- The final decision of the traffic block (main.py lines 340-347): minute
values and delta when both routing calls produced a time, else the heuristic
`-min(20.0, length_km * lanes * 0.6)`, halved in absolute value for a
`restriction`. -/
def traffic_combine (itype : InterventionType) (length_km : ℚ) (lanes : ℤ) :
    Option ℚ → Option ℚ → TrafficResult
  | some b, some s =>
      { minutesChange := s / 60 - b / 60
        baselineMinutes := some (b / 60)
        scenarioMinutes := some (s / 60) }
  | _, _ =>
      let mc : ℚ := -(min 20 (length_km * (lanes : ℚ) * (6/10)))
      { minutesChange := if itype = InterventionType.restriction then |mc| / 2 else mc
        baselineMinutes := none
        scenarioMinutes := none }

/-- The traffic block of `simulate` (main.py lines 328-347): baseline routing
without overlay; the overlay attempt only happens when `roadPoints` is
non-empty, the graph is loaded, and both path endpoints resolve, otherwise
`scen_sec` silently stays `base_sec`. -/
def traffic_result (road_graph : Option Graph)
    (resolver : Graph → LatLng → Option Node)
    (origin? destination? : Option LatLng) (roadPoints : List LatLng)
    (itype : InterventionType) (length_km : ℚ) (lanes : ℤ) : TrafficResult :=
  match origin?, destination? with
  | some origin, some dest =>
      let base_sec := compute_od_time road_graph resolver origin dest []
      let scen_sec :=
        match road_graph, roadPoints.head?, roadPoints.getLast? with
        | some _, some p0, some plast =>
            match nearest_node road_graph resolver p0,
                  nearest_node road_graph resolver plast with
            | some u, some v =>
                compute_od_time road_graph resolver origin dest
                  [(u, v, length_km, 60)]
            | _, _ => base_sec
        | _, _, _ => base_sec
      traffic_combine itype length_km lanes base_sec scen_sec
  | _, _ =>
      { minutesChange := 0, baselineMinutes := none, scenarioMinutes := none }

/-- The geometry failure of the flood block: shapely's
`LineString([...])` raises for a single coordinate
(main.py line 354 has no guard and no `try/except` around it). -/
inductive GeomError where
  | lineStringNeedsTwoPoints
  deriving DecidableEq

/-- The flood block of `simulate` (main.py lines 349-380).  `within` is the
opaque geometric predicate "this hotspot lies inside the 100-metre
EPSG:3857 buffer of the path polyline" (main.py lines 354-357); the filter
over the dataset and everything after it is embedded exactly. -/
def flood_result (flood_points : Option (List Hotspot))
    (within : List LatLng → Hotspot → Bool) (itype : InterventionType)
    (rainfall : ℤ) (length_km : ℚ) (roadPoints : List LatLng) :
    Except GeomError FloodResult :=
  let baseline_cells : ℤ := 1000
  let baseline_pop : ℤ := 500000
  let delta? : Except GeomError ℤ :=
    match flood_points, roadPoints with
    | some db, p :: ps =>
        if (p :: ps).length = 1 then Except.error GeomError.lineStringNeedsTwoPoints
        else
          let affected_count : ℤ := (db.filter (fun h => within (p :: ps) h)).length
          Except.ok
            (match itype with
             | InterventionType.road => affected_count
             | InterventionType.drain => -2 * affected_count
             | InterventionType.green => -affected_count
             | InterventionType.restriction => -2 * affected_count)
    | _, _ =>
        let rf : ℚ := max (1/100) ((rainfall : ℚ) / 100)
        Except.ok
          (match itype with
           | InterventionType.road => pyRound (length_km * rf * 10)
           | InterventionType.drain => -pyRound (length_km * rf * 15)
           | InterventionType.green => -pyRound (length_km * rf * 8)
           | InterventionType.restriction => -pyRound (length_km * rf * 12))
  match delta? with
  | Except.error e => Except.error e
  | Except.ok delta_cells =>
      let scenario_cells : ℤ := max 0 (baseline_cells + delta_cells)
      let scenario_pop : ℤ :=
        pyTrunc ((baseline_pop : ℚ) * ((scenario_cells : ℚ) / (baseline_cells : ℚ)))
      Except.ok
        { baselineHighRiskCells := baseline_cells
          scenarioHighRiskCells := scenario_cells
          baselinePop := baseline_pop
          scenarioPop := scenario_pop }

/-- `simulate` (main.py lines 324-388), the `/api/disaster/simulate`
handler.  An uncaught exception from the flood block surfaces to the
transport layer; everything else is assembled into a `ScenarioResponse`. -/
def simulate (road_graph : Option Graph)
    (resolver : Graph → LatLng → Option Node)
    (flood_points : Option (List Hotspot))
    (within : List LatLng → Hotspot → Bool)
    (dist : LatLng → LatLng → ℚ) (req : ScenarioRequest) :
    Except GeomError ScenarioResponse :=
  let length_km := orElseLength req.approxLength
    (compute_length_from_points dist req.roadPoints)
  let lanes := orElseLanes req.lanes
  let traffic := traffic_result road_graph resolver req.origin req.destination
    req.roadPoints req.interventionType length_km lanes
  match flood_result flood_points within req.interventionType req.rainfall
      length_km req.roadPoints with
  | Except.error e => Except.error e
  | Except.ok fl =>
      Except.ok { traffic := traffic, flood := fl, notesLengthKm := length_km }

/-! ## Helper lemmas -/

theorem list_min_mem : ∀ {l : List ℚ} {m : ℚ}, list_min l = some m → m ∈ l := by
  intro l
  induction l with
  | nil => intro m h; simp [list_min] at h
  | cons x xs ih =>
      intro m h
      cases hxs : list_min xs with
      | none => rw [list_min, hxs] at h; simp at h; simp [h]
      | some m' =>
          rw [list_min, hxs] at h
          simp at h
          rcases min_choice x m' with hc | hc
          · simp [← h, hc]
          · simp [← h, hc, ih hxs]

theorem list_min_le {l : List ℚ} {a : ℚ} (ha : a ∈ l) :
    ∃ m, list_min l = some m ∧ m ≤ a := by
  induction l with
  | nil => cases ha
  | cons x xs ih =>
      rcases List.mem_cons.mp ha with rfl | hmem
      · cases hxs : list_min xs with
        | none => exact ⟨a, by simp [list_min, hxs], le_refl a⟩
        | some m => exact ⟨min a m, by simp [list_min, hxs], min_le_left a m⟩
      · obtain ⟨m, hm, hle⟩ := ih hmem
        refine ⟨min x m, by simp [list_min, hm], le_trans (min_le_right x m) hle⟩

theorem routes_mono {g g' : Graph} (hsub : ∀ e, e ∈ g → e ∈ g') (tgt : Node) :
    ∀ (fuel fuel' : ℕ), fuel ≤ fuel' → ∀ (vis : List Node) (u : Node) (w : ℚ),
      w ∈ routes g tgt fuel vis u → w ∈ routes g' tgt fuel' vis u := by
  intro fuel
  induction fuel with
  | zero =>
      intro fuel' _ vis u w hw
      rw [routes] at hw
      by_cases hu : u = tgt
      · rw [if_pos hu] at hw
        simp only [List.mem_singleton] at hw
        subst hw
        cases fuel' <;> simp [routes, hu]
      · rw [if_neg hu] at hw
        cases hw
  | succ n ih =>
      intro fuel' hle vis u w hw
      obtain ⟨m, rfl⟩ : ∃ m, fuel' = m + 1 := ⟨fuel' - 1, by omega⟩
      by_cases hu : u = tgt
      · rw [routes, if_pos hu] at hw
        simp only [List.mem_singleton] at hw
        subst hw
        simp [routes, hu]
      · rw [routes, if_neg hu] at hw
        rw [routes, if_neg hu]
        rw [List.mem_flatMap] at hw ⊢
        obtain ⟨e, he, hwmem⟩ := hw
        rw [List.mem_filter] at he
        rw [List.mem_map] at hwmem
        obtain ⟨w', hw', hw'eq⟩ := hwmem
        refine ⟨e, List.mem_filter.mpr ⟨hsub e he.1, he.2⟩, List.mem_map.mpr ?_⟩
        exact ⟨w', ih m (by omega) _ _ _ hw', hw'eq⟩

theorem overlay_apply_eq_append :
    ∀ (temp_edges : List OverlayEdge) (g : Graph),
      overlay_apply g temp_edges = g ++ converted_edges temp_edges := by
  intro temp_edges
  induction temp_edges with
  | nil => intro g; simp [overlay_apply, converted_edges]
  | cons e es ih =>
      intro g
      have h1 : overlay_apply g (e :: es) =
          overlay_apply (add_edge (add_edge g e.1 e.2.1 (e.2.2.1 / e.2.2.2 * 3600))
            e.2.1 e.1 (e.2.2.1 / e.2.2.2 * 3600)) es := rfl
      rw [h1, ih]
      simp [converted_edges, add_edge, List.append_assoc]

theorem mem_overlay_apply {g : Graph} {e : Edge} (he : e ∈ g)
    (temp_edges : List OverlayEdge) : e ∈ overlay_apply g temp_edges := by
  rw [overlay_apply_eq_append]
  exact List.mem_append_left _ he

theorem graph_nodes_mono {g g' : Graph} (h : ∀ e, e ∈ g → e ∈ g') :
    graph_nodes g ⊆ graph_nodes g' := by
  intro x hx
  rw [graph_nodes, Finset.mem_union] at hx ⊢
  rcases hx with hx | hx
  · left
    rw [List.mem_toFinset, List.mem_map] at hx ⊢
    obtain ⟨e, he, rfl⟩ := hx
    exact ⟨e, h e he, rfl⟩
  · right
    rw [List.mem_toFinset, List.mem_map] at hx ⊢
    obtain ⟨e, he, rfl⟩ := hx
    exact ⟨e, h e he, rfl⟩

theorem shortest_time_mono {g G : Graph} (hsub : ∀ e, e ∈ g → e ∈ G)
    {u v : Node} {b : ℚ} (hb : shortest_time g u v = some b) :
    ∃ s, shortest_time G u v = some s ∧ s ≤ b := by
  have hmem := list_min_mem hb
  have hcard : (graph_nodes g).card ≤ (graph_nodes G).card :=
    Finset.card_le_card (graph_nodes_mono hsub)
  have hmem' := routes_mono hsub v _ _ hcard [] u b hmem
  exact list_min_le hmem'

/-! ## Concrete inputs used in instances and counterexamples -/

/-- The trivial 2-node network of spec §8: one directed edge of travel time
1000 seconds. -/
def demo_graph : Graph := [(0, 1, 1000)]

/-- A nearest-node resolver sending latitude-0 points to node 0 and all
others to node 1. -/
def demo_resolver : Graph → LatLng → Option Node :=
  fun _ p => if p.lat = 0 then some 0 else some 1

/-! ## Claim theorems -/

/-- C3: adding overlay edges never increases the shortest travel time: if the
baseline call (no overlay) of `compute_od_time` yields a travel time `b`,
the same call with any overlay edge list yields a travel time `s ≤ b`; and
on the 2-node network with a single 1000-second edge, an overlay edge of
computed travel time `(10/3 / 60) * 3600 = 200` seconds between the same
nodes makes the result exactly 200 s (hence ≤ 200 s). -/
theorem overlay_never_increases_travel_time :
    (∀ (g : Graph) (resolver : Graph → LatLng → Option Node) (o d : LatLng)
        (temp_edges : List OverlayEdge) (b : ℚ),
        compute_od_time (some g) resolver o d [] = some b →
        ∃ s, compute_od_time (some g) resolver o d temp_edges = some s ∧ s ≤ b)
    ∧ compute_od_time (some demo_graph) demo_resolver ⟨0, 0⟩ ⟨1, 1⟩
        [(0, 1, 10/3, 60)] = some 200 := by
  constructor
  · intro g resolver o d temp_edges b hb
    simp only [compute_od_time, nearest_node] at hb ⊢
    cases hro : resolver g o with
    | none => rw [hro] at hb; exact Option.noConfusion hb
    | some u =>
        rw [hro] at hb
        cases hrd : resolver g d with
        | none => rw [hrd] at hb; exact Option.noConfusion hb
        | some v =>
            rw [hrd] at hb
            have hbase : shortest_time g u v = some b := hb
            obtain ⟨s, hs, hsb⟩ := shortest_time_mono
              (fun e he => mem_overlay_apply he temp_edges) hbase
            exact ⟨s, hs, hsb⟩
  · norm_num [compute_od_time, demo_graph, demo_resolver, nearest_node,
      shortest_time, graph_nodes, overlay_apply, add_edge, routes, list_min]

/-- Witness for C3: on the 2-node demo network the hypothesis of the general
monotonicity statement holds with baseline time 1000 s, and the theorem
produces an overlay travel time bounded by it. -/
theorem overlay_never_increases_travel_time_witness :
    ∃ s, compute_od_time (some demo_graph) demo_resolver ⟨0, 0⟩ ⟨1, 1⟩
        [(0, 1, 10/3, 60)] = some s ∧ s ≤ 1000 :=
  overlay_never_increases_travel_time.1 demo_graph demo_resolver ⟨0, 0⟩ ⟨1, 1⟩
    [(0, 1, 10/3, 60)] 1000
    (by norm_num [compute_od_time, demo_graph, demo_resolver, nearest_node,
      shortest_time, graph_nodes, overlay_apply, routes, list_min])

/-- C9: `compute_od_time` never mutates the supplied network: in the
state-passing rendering the process-wide graph is returned unchanged while
the result agrees with the pure function, and every overlay edge
`(u, v, length_km, speed)` is converted to `t = (length_km / speed) * 3600`
seconds and inserted as a bidirectional pair only on the derived copy, which
is exactly the original edge list extended with the converted pairs. -/
theorem compute_od_time_no_mutation :
    (∀ (road_graph : Option Graph) (resolver : Graph → LatLng → Option Node)
        (o d : LatLng) (temp_edges : List OverlayEdge),
        (compute_od_time_run road_graph resolver o d temp_edges).2 = road_graph
        ∧ (compute_od_time_run road_graph resolver o d temp_edges).1 =
            compute_od_time road_graph resolver o d temp_edges)
    ∧ (∀ (g : Graph) (temp_edges : List OverlayEdge),
        overlay_apply g temp_edges = g ++ converted_edges temp_edges) := by
  constructor
  · intro road_graph resolver o d temp_edges
    cases road_graph <;> simp [compute_od_time_run, compute_od_time]
  · exact fun g temp_edges => overlay_apply_eq_append temp_edges g

/-- C4: `classify_severity` is the pure threshold function
`<10 → low`, `<25 → moderate`, `<50 → high`, `≥50 → critical`; in
particular 9.99 is low, 10 and 24.99 moderate, 25 and 49.99 high, and 50
critical. -/
theorem classify_severity_thresholds :
    (∀ r : ℚ,
        (r < 10 → classify_severity r = "low")
        ∧ (10 ≤ r → r < 25 → classify_severity r = "moderate")
        ∧ (25 ≤ r → r < 50 → classify_severity r = "high")
        ∧ (50 ≤ r → classify_severity r = "critical"))
    ∧ classify_severity (999/100) = "low"
    ∧ classify_severity 10 = "moderate"
    ∧ classify_severity (2499/100) = "moderate"
    ∧ classify_severity 25 = "high"
    ∧ classify_severity (4999/100) = "high"
    ∧ classify_severity 50 = "critical" := by
  refine ⟨fun r => ⟨?_, ?_, ?_, ?_⟩, ?_, ?_, ?_, ?_, ?_, ?_⟩
  · intro h; rw [classify_severity, if_pos h]
  · intro h1 h2
    rw [classify_severity, if_neg (not_lt.mpr h1), if_pos h2]
  · intro h1 h2
    rw [classify_severity, if_neg (not_lt.mpr (by linarith)),
      if_neg (not_lt.mpr (by linarith)), if_pos h2]
  · intro h1
    rw [classify_severity, if_neg (not_lt.mpr (by linarith)),
      if_neg (not_lt.mpr (by linarith)), if_neg (not_lt.mpr (by linarith))]
  all_goals norm_num [classify_severity]

/-- Witness for C4: the moderate band applied at rainfall 12. -/
theorem classify_severity_thresholds_witness :
    (10 : ℚ) ≤ 12 ∧ (12 : ℚ) < 25 ∧ classify_severity 12 = "moderate" :=
  ⟨by norm_num, by norm_num,
    (classify_severity_thresholds.1 12).2.1 (by norm_num) (by norm_num)⟩

/-- Twenty hotspots on the diagonal, mirroring the spec §8 end-to-end
examples. -/
def demo_hotspots : List Hotspot :=
  [⟨0, 0, []⟩, ⟨1, 1, []⟩, ⟨2, 2, []⟩, ⟨3, 3, []⟩, ⟨4, 4, []⟩,
   ⟨5, 5, []⟩, ⟨6, 6, []⟩, ⟨7, 7, []⟩, ⟨8, 8, []⟩, ⟨9, 9, []⟩,
   ⟨10, 10, []⟩, ⟨11, 11, []⟩, ⟨12, 12, []⟩, ⟨13, 13, []⟩, ⟨14, 14, []⟩,
   ⟨15, 15, []⟩, ⟨16, 16, []⟩, ⟨17, 17, []⟩, ⟨18, 18, []⟩, ⟨19, 19, []⟩]

/-- Shared evaluation lemma: on a non-empty (restricted) hotspot list the
alert is the deterministic record built from the activation fraction, the
prefix selection and the severity tables. -/
theorem generate_alert_ok_of_ne_nil (fps : List Hotspot) (rainfall : ℚ)
    (bbox : Option (ℚ × ℚ × ℚ × ℚ)) (h : bbox_filter bbox fps ≠ []) :
    generate_alert_from_rainfall (some fps) rainfall bbox =
      Except.ok
        { severity := classify_severity rainfall
          affected_count :=
            max 1 (pyTrunc (((bbox_filter bbox fps).length : ℚ) * rainfall_fraction rainfall))
          affected_points :=
            ((bbox_filter bbox fps).take
              (max 1 (pyTrunc (((bbox_filter bbox fps).length : ℚ) *
                rainfall_fraction rainfall))).toNat).map hotspot_to_point
          message := severity_message (classify_severity rainfall)
          recommended_actions := severity_actions (classify_severity rainfall)
          rainfall_mm := rainfall } := by
  have hlen : ¬ (bbox_filter bbox fps).length = 0 := by
    simpa [List.length_eq_zero] using h
  simp only [generate_alert_from_rainfall]
  rw [if_neg hlen]

/-- C5: on a non-empty (possibly bbox-restricted) hotspot collection the
alert's affected count is `max(1, ⌊total * fraction⌋)` with the fraction
given by the rainfall breakpoints `<10 → 0.05`, `<25 → 0.15`, `<50 → 0.40`,
`<100 → 0.70`, else `1.0`, and the affected points are exactly the first
`affectedCount` hotspots in collection order — a deterministic function of
the inputs. -/
theorem generate_alert_selection (fps : List Hotspot) (rainfall : ℚ)
    (bbox : Option (ℚ × ℚ × ℚ × ℚ)) (h : bbox_filter bbox fps ≠ []) :
    generate_alert_from_rainfall (some fps) rainfall bbox =
      (let pts := bbox_filter bbox fps
       let frac : ℚ :=
         if rainfall < 10 then 5/100
         else if rainfall < 25 then 15/100
         else if rainfall < 50 then 40/100
         else if rainfall < 100 then 70/100
         else 1
       let affected_count : ℤ := max 1 ⌊(pts.length : ℚ) * frac⌋
       Except.ok
         { severity := classify_severity rainfall
           affected_count := affected_count
           affected_points := (pts.take affected_count.toNat).map hotspot_to_point
           message := severity_message (classify_severity rainfall)
           recommended_actions := severity_actions (classify_severity rainfall)
           rainfall_mm := rainfall }) := by
  have hfrac : (0 : ℚ) ≤ rainfall_fraction rainfall := by
    rw [rainfall_fraction]; split_ifs <;> norm_num
  have htr : pyTrunc (((bbox_filter bbox fps).length : ℚ) * rainfall_fraction rainfall) =
      ⌊((bbox_filter bbox fps).length : ℚ) * rainfall_fraction rainfall⌋ :=
    pyTrunc_of_nonneg (mul_nonneg (by positivity) hfrac)
  rw [generate_alert_ok_of_ne_nil fps rainfall bbox h]
  simp only [htr]
  rfl

/-- Witness for C5: the spec §8 example — rainfall 30 over 20 hotspots gives
fraction 0.40, affected count 8, severity "high", and the selection is the
8-element prefix. -/
theorem generate_alert_selection_witness :
    (generate_alert_from_rainfall (some demo_hotspots) 30 none).map
        (fun a => (a.severity, a.affected_count, a.affected_points.length)) =
      Except.ok ("high", 8, 8) := by
  rw [generate_alert_selection demo_hotspots 30 none
    (by simp [bbox_filter, demo_hotspots])]
  have h20 : (bbox_filter none demo_hotspots).length = 20 := by decide
  norm_num [h20, classify_severity, Except.map]
  decide

/-- C6 amended: every alert produced from a *non-empty* restricted hotspot
set carries the message and recommended actions of the per-severity lookup
tables (whose entries are as enumerated); the empty-set alert has severity
"low", count 0, message "No known hotspots for selected area." — but its
recommended actions are the hard-coded `["Monitor rainfall"]`, not the low
table entry. -/
theorem generate_alert_messaging (fps : List Hotspot) (rainfall : ℚ)
    (bbox : Option (ℚ × ℚ × ℚ × ℚ)) :
    (severity_actions "low" = ["Monitor rainfall trends"]
      ∧ severity_actions "moderate" = ["Prepare pumps and alert local teams"]
      ∧ severity_actions "high" = ["Issue city-wide advisories", "Mobilize maintenance teams"]
      ∧ severity_actions "critical" = ["Activate emergency operations", "Prepare evacuations"])
    ∧ (bbox_filter bbox fps ≠ [] →
        (generate_alert_from_rainfall (some fps) rainfall bbox).map
            (fun a => (a.severity, a.message, a.recommended_actions)) =
          Except.ok (classify_severity rainfall,
            severity_message (classify_severity rainfall),
            severity_actions (classify_severity rainfall)))
    ∧ (bbox_filter bbox fps = [] →
        generate_alert_from_rainfall (some fps) rainfall bbox =
          Except.ok
            { severity := "low", affected_count := 0, affected_points := []
              message := "No known hotspots for selected area."
              recommended_actions := ["Monitor rainfall"]
              rainfall_mm := rainfall }) := by
  refine ⟨⟨rfl, rfl, rfl, rfl⟩, ?_, ?_⟩
  · intro h
    rw [generate_alert_ok_of_ne_nil fps rainfall bbox h]
    rfl
  · intro h
    simp only [generate_alert_from_rainfall]
    rw [if_pos (by simp [h])]

/-- Witness for C6: both branches at concrete inputs — a singleton hotspot
set with rainfall 60 yields the "high" table entries, and the empty set with
rainfall 5 yields the fixed no-hotspot alert. -/
theorem generate_alert_messaging_witness :
    (generate_alert_from_rainfall (some [⟨1, 2, []⟩]) 60 none).map
        (fun a => (a.severity, a.message, a.recommended_actions)) =
      Except.ok ("critical", "Critical risk — widespread inundation possible.",
        ["Activate emergency operations", "Prepare evacuations"])
    ∧ generate_alert_from_rainfall (some []) 5 none =
      Except.ok
        { severity := "low", affected_count := 0, affected_points := []
          message := "No known hotspots for selected area."
          recommended_actions := ["Monitor rainfall"], rainfall_mm := 5 } := by
  constructor
  · rw [(generate_alert_messaging [⟨1, 2, []⟩] 60 none).2.1 (by simp [bbox_filter])]
    norm_num [classify_severity, Except.map]
    decide
  · exact (generate_alert_messaging [] 5 none).2.2 (by simp [bbox_filter])

/-- Counterexample to C6 as stated: the alert generated from an empty
hotspot set has severity "low" but carries recommended actions
`["Monitor rainfall"]`, which differ from the low entry
`["Monitor rainfall trends"]` of the per-severity lookup table. -/
theorem generate_alert_actions_counterexample :
    (generate_alert_from_rainfall (some []) 7 none).map
        (fun a => (a.severity, a.recommended_actions)) =
      Except.ok ("low", ["Monitor rainfall"])
    ∧ severity_actions "low" = ["Monitor rainfall trends"]
    ∧ (["Monitor rainfall"] : List String) ≠ ["Monitor rainfall trends"] := by
  refine ⟨?_, rfl, by decide⟩
  rfl

/-- C7 amended: when the hotspot dataset is loaded and the request path has
at least two points, the flood branch counts the hotspots within the
100-metre buffer of the path and sets the risk-cell delta by intervention
type — `road → +count`, `drain → -2*count`, `green → -count`,
`restriction → -2*count` — with `scenarioCells = max(0, 1000 + delta)`.
(With exactly one point the geometry construction fails instead, see the
counterexample.) -/
theorem flood_spatial_branch (db : List Hotspot)
    (within : List LatLng → Hotspot → Bool) (itype : InterventionType)
    (rainfall : ℤ) (length_km : ℚ) (p q : LatLng) (rest : List LatLng) :
    flood_result (some db) within itype rainfall length_km (p :: q :: rest) =
      (let cnt : ℤ := (db.filter (fun h => within (p :: q :: rest) h)).length
       let delta : ℤ :=
         match itype with
         | InterventionType.road => cnt
         | InterventionType.drain => -2 * cnt
         | InterventionType.green => -cnt
         | InterventionType.restriction => -2 * cnt
       let cells : ℤ := max 0 (1000 + delta)
       Except.ok
         { baselineHighRiskCells := 1000, scenarioHighRiskCells := cells,
           baselinePop := 500000,
           scenarioPop := pyTrunc ((500000 : ℚ) * ((cells : ℚ) / 1000)) }) := by
  have hne : ¬ (p :: q :: rest).length = 1 := by simp
  simp only [flood_result]
  rw [if_neg hne]
  norm_num

/-- Counterexample to C7 as stated: a non-empty path with exactly one point
reaches the geometry construction, which fails — the flood branch produces
no count-based result at all for this valid input. -/
theorem flood_one_point_path_counterexample :
    flood_result (some []) (fun _ _ => false) InterventionType.road 0 0 [⟨0, 0⟩] =
      Except.error GeomError.lineStringNeedsTwoPoints := rfl

/-- C8: in the heuristic flood fallback (dataset absent or path empty) the
risk-cell delta is `round(length * max(0.01, rainfall/100) * k)` with
`k = 10` (road, positive), `15` (drain), `8` (green), `12` (restriction)
(negated for the last three), `scenarioCells = max(0, 1000 + delta)` and
`scenarioPopulation = int(500000 * scenarioCells / 1000)`. -/
theorem flood_fallback_branch (flood_points : Option (List Hotspot))
    (within : List LatLng → Hotspot → Bool) (itype : InterventionType)
    (rainfall : ℤ) (length_km : ℚ) (roadPoints : List LatLng)
    (h : flood_points = none ∨ roadPoints = []) :
    flood_result flood_points within itype rainfall length_km roadPoints =
      (let rf : ℚ := max (1/100) ((rainfall : ℚ) / 100)
       let delta : ℤ :=
         match itype with
         | InterventionType.road => pyRound (length_km * rf * 10)
         | InterventionType.drain => -pyRound (length_km * rf * 15)
         | InterventionType.green => -pyRound (length_km * rf * 8)
         | InterventionType.restriction => -pyRound (length_km * rf * 12)
       let cells : ℤ := max 0 (1000 + delta)
       Except.ok
         { baselineHighRiskCells := 1000, scenarioHighRiskCells := cells,
           baselinePop := 500000,
           scenarioPop := pyTrunc ((500000 : ℚ) * ((cells : ℚ) / 1000)) }) := by
  rcases h with h | h
  · subst h
    cases roadPoints <;> rfl
  · subst h
    cases flood_points <;> rfl

/-- Witness for C8: the spec §8 fallback example — no dataset, type `drain`,
rainfall 40, length 2 km gives delta −12, 988 scenario cells and scenario
population 494000. -/
theorem flood_fallback_branch_witness :
    flood_result none (fun _ _ => false) InterventionType.drain 40 2 [] =
      Except.ok
        { baselineHighRiskCells := 1000, scenarioHighRiskCells := 988,
          baselinePop := 500000, scenarioPop := 494000 } := by
  rw [flood_fallback_branch none (fun _ _ => false) InterventionType.drain 40 2 []
    (Or.inl rfl)]
  norm_num [pyRound, pyTrunc]

/-- C2 amended: with origin and destination supplied, whenever the
*baseline* routing call fails (graph absent, origin/destination resolution
failure, or disconnection) the traffic delta is the heuristic
`-min(20, length_km * lanes * 0.6)` minutes — absolute value halved for a
`restriction`.  (A nearest-node resolution failure for the *path endpoints*
does not trigger the heuristic: it merely skips the overlay, see the
counterexample.) -/
theorem traffic_heuristic_fallback (road_graph : Option Graph)
    (resolver : Graph → LatLng → Option Node) (o d : LatLng)
    (roadPoints : List LatLng) (itype : InterventionType)
    (length_km : ℚ) (lanes : ℤ)
    (h : compute_od_time road_graph resolver o d [] = none) :
    traffic_result road_graph resolver (some o) (some d) roadPoints itype
        length_km lanes =
      (let mc : ℚ := -(min 20 (length_km * (lanes : ℚ) * (6/10)))
       { minutesChange := if itype = InterventionType.restriction then |mc| / 2 else mc
         baselineMinutes := none
         scenarioMinutes := none }) := by
  have hcomb : ∀ scen : Option ℚ,
      traffic_combine itype length_km lanes none scen =
        (let mc : ℚ := -(min 20 (length_km * (lanes : ℚ) * (6/10)))
         { minutesChange := if itype = InterventionType.restriction then |mc| / 2 else mc
           baselineMinutes := none
           scenarioMinutes := none }) := by
    intro scen; cases scen <;> rfl
  simp only [traffic_result, h]
  exact hcomb _

/-- Witness for C2 (amended): without a road graph, the baseline call fails
and a road intervention of length 5 km with 2 lanes yields the heuristic
delta `-min(20, 5 * 2 * 0.6) = -6` minutes. -/
theorem traffic_heuristic_fallback_witness :
    traffic_result none (fun _ _ => none) (some ⟨0, 0⟩) (some ⟨1, 1⟩) []
        InterventionType.road 5 2 =
      { minutesChange := -6, baselineMinutes := none, scenarioMinutes := none } := by
  rw [traffic_heuristic_fallback none (fun _ _ => none) ⟨0, 0⟩ ⟨1, 1⟩ []
    InterventionType.road 5 2 rfl]
  norm_num
  decide

/-- The network, resolver and request exhibiting the C2 counterexample: the
baseline route exists (600 s), but the road-path endpoints at latitude 5
and 6 do not resolve to any node. -/
def c2_graph : Graph := [(0, 1, 600)]

/-- Resolver for the C2 counterexample: latitude 0 resolves to node 0,
latitude 1 to node 1, everything else fails. -/
def c2_resolver : Graph → LatLng → Option Node :=
  fun _ p => if p.lat = 0 then some 0 else if p.lat = 1 then some 1 else none

/-- Counterexample to C2 as stated: origin and destination resolve and are
connected (baseline 600 s), the nearest-node resolution of both path
endpoints fails, yet the traffic delta is 0 — the overlay is silently
skipped — and not the heuristic `-min(20, 2 * 1 * 0.6) = -1.2` the claim
prescribes for a routing-call failure. -/
theorem traffic_endpoint_failure_counterexample :
    (traffic_result (some c2_graph) c2_resolver (some ⟨0, 0⟩) (some ⟨1, 0⟩)
        [⟨5, 5⟩, ⟨6, 6⟩] InterventionType.road 2 1).minutesChange = 0
    ∧ nearest_node (some c2_graph) c2_resolver ⟨5, 5⟩ = none
    ∧ nearest_node (some c2_graph) c2_resolver ⟨6, 6⟩ = none
    ∧ (0 : ℚ) ≠ -(min 20 ((2 : ℚ) * 1 * (6/10))) := by
  refine ⟨?_, ?_, ?_, ?_⟩
  · norm_num [traffic_result, traffic_combine, c2_graph, c2_resolver,
      compute_od_time, nearest_node, shortest_time, graph_nodes, overlay_apply,
      routes, list_min]
  · norm_num [nearest_node, c2_resolver]
  · norm_num [nearest_node, c2_resolver]
  · rw [min_eq_right (by norm_num)]
    norm_num

/-- C1 (failing input): with the hotspot dataset loaded, a valid well-typed
request whose path holds exactly one point makes `simulate` construct a
one-point line geometry, which fails — the request errors instead of
returning a `ScenarioResult`.  The same request with a two-point path
returns a result, isolating the failure to the unguarded geometry
construction. -/
theorem simulate_single_point_path_error :
    simulate none (fun _ _ => none) (some [⟨17, 78, []⟩]) (fun _ _ => true)
        (fun _ _ => 0)
        { interventionType := InterventionType.drain, rainfall := 5,
          roadPoints := [⟨174/10, 784/10⟩] } =
      Except.error GeomError.lineStringNeedsTwoPoints
    ∧ simulate none (fun _ _ => none) (some [⟨17, 78, []⟩]) (fun _ _ => true)
        (fun _ _ => 0)
        { interventionType := InterventionType.drain, rainfall := 5,
          roadPoints := [⟨174/10, 784/10⟩, ⟨17, 78⟩] } =
      Except.ok
        { traffic := { minutesChange := 0 }
          flood := { baselineHighRiskCells := 1000, scenarioHighRiskCells := 998,
                     baselinePop := 500000, scenarioPop := 499000 }
          notesLengthKm := 0 } := by
  constructor
  · norm_num [simulate, flood_result, orElseLength, orElseLanes,
      compute_length_from_points, pair_sum, traffic_result]
  · norm_num [simulate, flood_result, orElseLength, orElseLanes,
      compute_length_from_points, pair_sum, traffic_result, pyTrunc]

/-- C10: a `None` or explicit `0` `approxLength` is treated identically —
the Python `or` falls through to the polyline length computed from the path
(`0` for fewer than two points), so `simulate` gives the same response for
`approxLength = some 0` as for `approxLength = none`. -/
theorem zero_length_treated_as_absent :
    (∀ fallback : ℚ,
        orElseLength (some 0) fallback = fallback
        ∧ orElseLength none fallback = fallback)
    ∧ (∀ (road_graph : Option Graph) (resolver : Graph → LatLng → Option Node)
        (flood_points : Option (List Hotspot))
        (within : List LatLng → Hotspot → Bool)
        (dist : LatLng → LatLng → ℚ) (req : ScenarioRequest),
        req.approxLength = some 0 →
        simulate road_graph resolver flood_points within dist req =
          simulate road_graph resolver flood_points within dist
            { req with approxLength := none })
    ∧ (∀ (dist : LatLng → LatLng → ℚ) (pts : List LatLng),
        pts.length < 2 → compute_length_from_points dist pts = 0) := by
  refine ⟨fun fallback => ⟨by simp [orElseLength], rfl⟩, ?_,
    fun dist pts h => by simp [compute_length_from_points, h]⟩
  intro road_graph resolver flood_points within dist req h
  obtain ⟨sn, it, rf, al, ln, rp, o, d⟩ := req
  simp only at h
  subst h
  simp [simulate, orElseLength]

/-- Witness for C10: a concrete request with `approxLength = some 0` gives
the same response as with `approxLength = none`, and the zero explicit
length is replaced by the supplied fallback. -/
theorem zero_length_treated_as_absent_witness :
    simulate none (fun _ _ => none) none (fun _ _ => false) (fun _ _ => 7)
        { interventionType := InterventionType.green, rainfall := 12,
          approxLength := some 0, roadPoints := [⟨0, 0⟩, ⟨1, 1⟩] } =
      simulate none (fun _ _ => none) none (fun _ _ => false) (fun _ _ => 7)
        { interventionType := InterventionType.green, rainfall := 12,
          approxLength := none, roadPoints := [⟨0, 0⟩, ⟨1, 1⟩] }
    ∧ orElseLength (some 0) 5 = 5 :=
  ⟨zero_length_treated_as_absent.2.1 none (fun _ _ => none) none
      (fun _ _ => false) (fun _ _ => 7)
      { interventionType := InterventionType.green, rainfall := 12,
        approxLength := some 0, roadPoints := [⟨0, 0⟩, ⟨1, 1⟩] } rfl,
    (zero_length_treated_as_absent.1 5).1⟩

end DigitalTwin
